import Mathlib

/-!
Verification of the amazon-scraper repository's configuration resolver and
crawl pipeline against its natural-language specification.

The Python sources are shallowly embedded: Python values (as stored in the
nested configuration mappings) become the inductive type `PyVal`; mappings
become association lists; fallible code returns `Except`; browser/DOM
effects are supplied by explicit environment records describing the page
the driver would observe.
-/

set_option autoImplicit false

namespace AmazonScraper

/-- A Python value as it occurs in configuration mappings and records:
`None`, booleans, integers, strings, lists and (string-keyed) dicts. -/
inductive PyVal where
  | none : PyVal
  | bool : Bool → PyVal
  | int : Int → PyVal
  | str : String → PyVal
  | list : List PyVal → PyVal
  | dict : List (String × PyVal) → PyVal

/-- `v is None` in Python: identity with the `None` singleton. -/
def PyVal.isNone : PyVal → Bool
  | .none => true
  | _ => false

/-- Python truthiness (`bool(v)`): `None`, `False`, `0`, `""`, `[]` and `{}`
are falsy, everything else is truthy. -/
def pyTruthy : PyVal → Bool
  | .none => false
  | .bool b => b
  | .int n => n != 0
  | .str s => s != ""
  | .list l => !l.isEmpty
  | .dict d => !d.isEmpty

/-- `d.get(attr)` on a Python dict: `None` when the key is absent, the stored
value otherwise (which may itself be `None`). On a non-dict the source guards
with `isinstance(d, dict)` and yields `None`. -/
def pyDictGet : PyVal → String → PyVal
  | .dict kvs, attr => (kvs.lookup attr).getD PyVal.none
  | _, _ => PyVal.none

/-- The traversal loop in `dotget` (configuration/utility.py:96-101): walk the
split key, replacing the cursor by `d.get(attr) if isinstance(d, dict) else
None` and breaking as soon as the cursor is `None`. -/
def dotwalk : PyVal → List String → PyVal
  | d, [] => d
  | d, attr :: rest =>
    let v := pyDictGet d attr
    if v.isNone then PyVal.none else dotwalk v rest

/-- `s.split(c)` for a single-character separator, on the character list of
the string (`"".split(c) == [""]`, separators at the ends produce empty
parts). Stated over `List Char` so that concrete paths evaluate by `rfl`. -/
def splitChar (c : Char) : List Char → List (List Char)
  | [] => [[]]
  | x :: xs =>
    if x = c then [] :: splitChar c xs
    else
      match splitChar c xs with
      | h :: t => (x :: h) :: t
      | [] => [[x]]

/-- `s.split(c)` returning strings. -/
def pySplit (c : Char) (s : String) : List String :=
  (splitChar c s.data).map String.mk

/-- `s.replace(a, b)` for single characters. -/
def pyReplaceChar (a b : Char) (s : String) : String :=
  String.mk (s.data.map (fun x => if x = a then b else x))

/-- `s.replace(' ', '')`: remove every space. -/
def pyStripSpaces (s : String) : String :=
  String.mk (s.data.filter (fun x => x ≠ ' '))

/-- `c in s` for a character. -/
def pyContainsChar (c : Char) (s : String) : Bool :=
  s.data.contains c

/-- `dotexpand` (configuration/utility.py:62-79): strip spaces, split the path
on `','`, drop empty alternatives, and expand each alternative containing
`':'` into the `'.'`-substituted path followed by the `'_'`-substituted one. -/
def dotexpand (path : String) : List String :=
  (pySplit ',' (pyStripSpaces path)).foldr
    (fun p acc =>
      if p = "" then acc
      else if pyContainsChar ':' p then
        (pyReplaceChar ':' '.' p) :: (pyReplaceChar ':' '_' p) :: acc
      else p :: acc) []

/-- `dotget` (configuration/utility.py:82-104): try each expanded key in
order; the first key whose traversal ends on a non-`None` value wins; if every
key misses, return the default. -/
def dotget (data : PyVal) (path : String) (default : PyVal) : PyVal :=
  match (dotexpand path).findSome?
      (fun key =>
        let d := dotwalk data (pySplit '.' key)
        if d.isNone then Option.none else some d) with
  | some v => v
  | Option.none => default

/-- `dget` (configuration/utility.py:21-44): given alternative paths, return
the first non-`None` `dotget` result; `return default` when the data mapping
is falsy or every path misses. -/
def dget (data : PyVal) (paths : List String) (default : PyVal) : PyVal :=
  if pyTruthy data = false then default
  else
    match paths.findSome?
        (fun p =>
          let d := dotget data p PyVal.none
          if d.isNone then Option.none else some d) with
    | some v => v
    | Option.none => default

/-- The comparison `... != "@@"` used by `dotexists`. -/
def isAtAtSentinel : PyVal → Bool
  | .str s => s == "@@"
  | _ => false

/-- `dotexists` (configuration/utility.py:47-59): a path exists when `dotget`
with the sentinel default `"@@"` returns something other than the sentinel. -/
def dotexists (data : PyVal) (paths : List String) : Bool :=
  paths.any (fun path => !(isAtAtSentinel (dotget data path (PyVal.str "@@"))))

/-- Spec-side notion used by the claims: traversal that distinguishes a
*present* key (each component found by dict lookup) from an absent one, and
returns the value the final present key holds (possibly `None`). -/
def reaches : PyVal → List String → Option PyVal
  | d, [] => some d
  | .dict kvs, attr :: rest =>
    match kvs.lookup attr with
    | some v => reaches v rest
    | Option.none => Option.none
  | _, _ :: _ => Option.none

/-- First non-`None` hit of `dget` over its alternative paths, stated
independently of `dget` so the resolver can be characterised against it. -/
def dgetHit (data : PyVal) (paths : List String) : Option PyVal :=
  paths.findSome?
    (fun p =>
      let d := dotget data p PyVal.none
      if d.isNone then Option.none else some d)

/-- The spec's error taxonomy for the configuration subsystem (§7 names the
class `ConfigError`; the source raises `ValueError` at the corresponding
places: inject.py:53, inject.py:85, inject.py:126). -/
inductive ConfigError where
  | mandatoryMissing (key : String)
  | contextUndefined (context : String)
  | notInitialized (context : String)
deriving DecidableEq, Repr

/-- A built configuration context. Modelled from the spec: class `Config`
(configuration/config.py) is absent from the sources; per §3 a context is a
name together with a fully merged nested mapping. -/
structure Config where
  data : PyVal
  context : String

/-- Modelled from the spec: `Config.exists` (class `Config`,
configuration/config.py, absent from the sources) is the `path_exists` check
of §4.2, which the source implements as `dotexists` on the context's
mapping. -/
def Config.pathExists (c : Config) (key : String) : Bool :=
  dotexists c.data [key]

/-- Modelled from the spec: `Config.get` (class `Config`,
configuration/config.py, absent from the sources) is `resolve_path` of §4.2
on the context's mapping, which the source implements as `dget`
(`ConfigValue.resolve` calls it as `get(*self.key.split(","), default=...)`,
inject.py:55). -/
def Config.get (c : Config) (paths : List String) (default : PyVal) : PyVal :=
  dget c.data paths default

/-- A Deferred Value (`ConfigValue`, inject.py:30-58) with a string key.
Python defaults: `default=None`, `after=None`, `mandatory=False`. (The
nested-object escape hatch, where `key` is a class or `Config` marker, is
outside the claims considered here.) -/
structure ConfigValue where
  key : String
  default : PyVal := PyVal.none
  after : Option (PyVal → PyVal) := Option.none
  mandatory : Bool := false

/-- `ConfigValue.resolve` (inject.py:45-58) against the active context's
configuration: when `mandatory` is set and the default is falsy
(`not self.default`), fail unless `exists` holds for the key; otherwise
resolve the comma-split key through the path resolver and, when the resolved
value is truthy and a transform was supplied, apply it. -/
def ConfigValue.resolve (cv : ConfigValue) (cfg : Config) : Except ConfigError PyVal :=
  if cv.mandatory && !(pyTruthy cv.default) && !(cfg.pathExists cv.key) then
    .error (.mandatoryMissing cv.key)
  else
    let value := cfg.get (pySplit ',' cv.key) cv.default
    if pyTruthy value then
      match cv.after with
      | some f => .ok (f value)
      | Option.none => .ok value
    else .ok value

/-- One slot of `ConfigStore.store` (inject.py:71): Python stores
`str | Config | None` per context name; a missing key reads as `None`. -/
inductive StoreEntry where
  | unset
  | src (s : String)
  | built (c : Config)

/-- Python truthiness of a store slot (`not cls.store.get(context)`). -/
def StoreEntry.truthy : StoreEntry → Bool
  | .unset => false
  | .src s => s != ""
  | .built _ => true

/-- `isinstance(cls.store.get(context), Config)`. -/
def StoreEntry.asConfig : StoreEntry → Option Config
  | .built c => some c
  | _ => Option.none

/-- The class-level state of `ConfigStore` (inject.py:68-72): the named
store and the name of the current context. -/
structure StoreState where
  store : List (String × StoreEntry)
  context : String

/-- `cls.store.get(context)`: `None` (here `.unset`) when the name is
absent. -/
def storeGet (st : StoreState) (context : String) : StoreEntry :=
  (st.store.lookup context).getD StoreEntry.unset

/-- `cls.store[context] = cfg`: replace the binding or append it. -/
def assocSet : List (String × StoreEntry) → String → StoreEntry → List (String × StoreEntry)
  | [], k, v => [(k, v)]
  | (k', v') :: rest, k, v =>
    if k' = k then (k, v) :: rest else (k', v') :: assocSet rest k v

/-- The `source` argument of `configure_context` (inject.py:107):
`Config | str | dict | None`. -/
inductive CfgSource where
  | noSource
  | ofStr (s : String)
  | ofDict (d : PyVal)
  | ofConfig (c : Config)

/-- Python truthiness of the `source` argument (`not source`). -/
def CfgSource.truthy : CfgSource → Bool
  | .noSource => false
  | .ofStr s => s != ""
  | .ofDict d => pyTruthy d
  | .ofConfig _ => true

/-- `source or cls.store.get(context)` (inject.py:135): the load input is the
source when it is truthy, otherwise the stored entry. -/
def loadInput (source : CfgSource) (stored : StoreEntry) : CfgSource :=
  if source.truthy then source
  else
    match stored with
    | .src s => .ofStr s
    | .built c => .ofConfig c
    | .unset => .noSource

/-- Modelled from the spec: `Config.load` (class `Config`,
configuration/config.py, absent from the sources) builds a context's fully
merged mapping from a document path or in-memory mapping and overlays
environment entries (§4.1). The document reader `loadDoc` and the
environment overlay `envMerge` are parameters of the model. -/
def Config.load (loadDoc : String → PyVal) (envMerge : PyVal → PyVal) :
    CfgSource → Config
  | .ofStr s => { data := envMerge (loadDoc s), context := "" }
  | .ofDict d => { data := envMerge d, context := "" }
  | .ofConfig c => c
  | .noSource => { data := envMerge PyVal.none, context := "" }

/-- `ConfigStore._set_config` (inject.py:143-162): stamp the context name on
the configuration, store it under that name and make that name current. -/
def ConfigStore.set_config (st : StoreState) (context : String) (cfg : Config) :
    StoreState × Config :=
  let cfg' : Config := { cfg with context := context }
  ({ store := assocSet st.store context (StoreEntry.built cfg'), context := context }, cfg')

/-- `ConfigStore.configure_context` (inject.py:102-141): fail when neither a
stored entry nor a source is available; install a `Config` source directly;
with a falsy source and an already built context, return it unchanged (the
idempotent no-op path, which does **not** touch the current-context name);
otherwise build via `Config.load` and install. -/
def ConfigStore.configure_context (loadDoc : String → PyVal) (envMerge : PyVal → PyVal)
    (st : StoreState) (context : String) (source : CfgSource) :
    Except ConfigError (StoreState × Config) :=
  let existing := storeGet st context
  if !existing.truthy && !source.truthy then
    .error (.contextUndefined context)
  else
    match source with
    | .ofConfig c => .ok (ConfigStore.set_config st context c)
    | _ =>
      match (if source.truthy then Option.none else existing.asConfig) with
      | some c => .ok (st, c)
      | Option.none =>
        .ok (ConfigStore.set_config st context
          (Config.load loadDoc envMerge (loadInput source existing)))

/-- `ConfigStore.config` (inject.py:74-86): the current context's
configuration; an error when it was never built. -/
def ConfigStore.config (st : StoreState) : Except ConfigError Config :=
  match (storeGet st st.context).asConfig with
  | some c => .ok c
  | Option.none => .error (.notInitialized st.context)

/-- Exceptions raised by the scraping layer (selenium exception classes and
Python builtins as used in amazon_scraper.py and utility.py). -/
inductive Err where
  | noSuchElement (msg : String)
  | valueError (msg : String)
  | timeout (msg : String)
  | stale (msg : String)
  | generic (msg : String)
deriving DecidableEq, Repr

/-- The loop body of the `retry` combinator (utility.py:38-61). `op i` is the
outcome of invoking the wrapped operation for the `i`-th time; `catches`
is the exception-class filter; `default = None` means no default was
configured. The `fuel` argument is `times - attempt`; the result pairs the
call's outcome with the number of invocations of the operation. -/
def retryGo (op : Nat → Except Err PyVal) (catches : Err → Bool) (default : PyVal) :
    Nat → Nat → (Except Err PyVal) × Nat
  | _, 0 => (.ok default, 0)
  | attempt, fuel + 1 =>
    match op attempt with
    | .ok v => (.ok v, 1)
    | .error e =>
      if catches e then
        if fuel = 0 then
          (if default.isNone then .error e else .ok default, 1)
        else
          let r := retryGo op catches default (attempt + 1) fuel
          (r.1, r.2 + 1)
      else (.error e, 1)

/-- `retry(times, exceptions, sleep, default)` applied to an operation
(utility.py:38-61): run the `while attempt < times` loop from attempt 0.
A success returns its value; a failure matching the filter consumes an
attempt, and on exhaustion the configured default is returned unless it is
`None`, in which case the last failure is re-raised; a non-matching failure
propagates at once. -/
def retry (times : Nat) (op : Nat → Except Err PyVal) (catches : Err → Bool)
    (default : PyVal) : (Except Err PyVal) × Nat :=
  retryGo op catches default 0 times

/-- One product container located on a listing page (`get_products`,
amazon_scraper.py:312-327): the listing fields `find_attribute` would
deliver, the container's `data-asin` attribute (`None` when absent), and
whether extracting its fields raises `NoSuchElementException` (the class the
loop's `except` catches). -/
structure ProductContainer where
  title : PyVal := PyVal.none
  price : PyVal := PyVal.none
  url : PyVal := PyVal.none
  asin : Option String := Option.none
  sponsored : PyVal := PyVal.none
  raisesNoSuchElement : Bool := false

/-- One Harvest Record at the listing stage (the dict built at
amazon_scraper.py:315-322). -/
structure Product where
  title : PyVal
  price : PyVal
  url : PyVal
  asin : PyVal
  simplified_url : String
  is_sponsored : Bool

/-- `str(asin)` as interpolated by the f-string at amazon_scraper.py:320:
Python renders `None` as the text `"None"`. -/
def asinStr : Option String → String
  | some s => s
  | Option.none => "None"

/-- The record built for one container (amazon_scraper.py:315-322). -/
def extractProduct (base_url : String) (c : ProductContainer) : Product :=
  { title := c.title
    price := c.price
    url := c.url
    asin := match c.asin with
      | some s => PyVal.str s
      | Option.none => PyVal.none
    simplified_url := base_url ++ "/dp/" ++ asinStr c.asin
    is_sponsored := pyTruthy c.sponsored }

/-- `get_products` (amazon_scraper.py:291-331): one record per container,
except that a container whose extraction raises `NoSuchElementException` is
logged and skipped (`continue`), not fatal to the page. -/
def get_products (base_url : String) (containers : List ProductContainer) : List Product :=
  containers.foldr
    (fun c acc => if c.raisesNoSuchElement then acc else extractProduct base_url c :: acc) []

/-- `str(n).zfill(width)`: left-pad with zeros. -/
def zfill (width : Nat) (s : String) : String :=
  if width ≤ s.length then s else String.mk (List.replicate (width - s.length) '0') ++ s

/-- `urlparse(base_url).netloc.split('.')[-1]` (amazon_scraper.py:572) for a
`scheme://netloc/path` URL: the characters after the first `//` up to the
next `/`, split on `'.'`, last component. -/
def afterSlashSlash : List Char → List Char
  | '/' :: '/' :: rest => rest
  | _ :: rest => afterSlashSlash rest
  | [] => []

/-- The target-market code taken from the base URL's hostname. -/
def urlTld (url : String) : String :=
  String.mk ((splitChar '.' ((afterSlashSlash url.data).takeWhile (fun c => c ≠ '/'))).getLastD [])

/-- The dict returned by `get_product_info` (amazon_scraper.py:445-459),
restricted to the fields the pipeline uses downstream; in the pipeline model
it is produced by the deep-extraction oracle of the run environment. -/
structure DeepInfo where
  title_info : PyVal := PyVal.none
  price_info : PyVal := PyVal.none
  product_description : PyVal := PyVal.none
  rating : PyVal := PyVal.none
  store : PyVal := PyVal.none
  image_urls : List String := []

/-- A Harvest Record after deep extraction and metadata assignment
(amazon_scraper.py:569-580). -/
structure HarvestRecord where
  product : Product
  deep : DeepInfo
  tld : String
  keyword : String
  sort_id : String
  image_names : List String

/-- The per-image output filenames (amazon_scraper.py:576-579):
`f"{sort_id}{chr(97+index)}.{ext}"` where `ext` is the final `'.'`-component
of the image URL. -/
def imageNames (sort_id : String) (image_urls : List String) : List String :=
  image_urls.enum.map
    (fun iu =>
      sort_id ++ String.singleton (Char.ofNat (97 + iu.1)) ++ "." ++ (pySplit '.' iu.2).getLastD "")

/-- The record update performed for the `sid`-th surviving candidate
(amazon_scraper.py:570-579). -/
def mkHarvestRecord (base_url keyword : String) (sid : Nat) (p : Product)
    (deep : DeepInfo) : HarvestRecord :=
  let sort_id := zfill 4 (toString sid)
  { product := p
    deep := deep
    tld := urlTld base_url
    keyword := keyword
    sort_id := sort_id
    image_names := imageNames sort_id deep.image_urls }

/-- The DOM/driver behaviour a `search_amazon` run observes, one oracle per
stage call: the pagination-discovery outcome, the optional listing-page
screenshot pass (present iff `output_directory` was given), the containers
each listing page yields (an error when navigating/locating them raises),
and the deep-extraction outcome per candidate. -/
structure PipelineEnv where
  pagesOutcome : Except Err (List String)
  savePagesOutcome : Option (Except Err Unit) := Option.none
  pageContainers : String → Except Err (List ProductContainer)
  deepOutcome : Product → Except Err DeepInfo

/-- `if max_results:` — a maximum of `None` or `0` is falsy and disables both
the early stop and the truncation (amazon_scraper.py:561,565). -/
def maxCap : Option Nat → Option Nat
  | some m => if m = 0 then Option.none else some m
  | Option.none => Option.none

/-- The candidate-listing loop (amazon_scraper.py:558-563): accumulate
`get_products` page by page, stopping early once `max_results` is reached;
an exception from a page propagates. -/
def listingLoop (env : PipelineEnv) (base_url : String) (max_results : Option Nat) :
    List String → List Product → Except Err (List Product)
  | [], acc => .ok acc
  | page :: rest, acc =>
    match env.pageContainers page with
    | .error e => .error e
    | .ok cs =>
      let acc' := acc ++ get_products base_url cs
      match maxCap max_results with
      | some m =>
        if m ≤ acc'.length then .ok acc'
        else listingLoop env base_url max_results rest acc'
      | Option.none => listingLoop env base_url max_results rest acc'

/-- The deep-extraction loop (amazon_scraper.py:568-580): for each candidate
in listing order call `get_product_info` and stamp the ordinal metadata. The
loop body has no try/except, so any failure propagates and aborts the
whole run. -/
def deepLoop (env : PipelineEnv) (base_url keyword : String) :
    List Product → Nat → Except Err (List HarvestRecord)
  | [], _ => .ok []
  | p :: rest, sid =>
    match env.deepOutcome p with
    | .error e => .error e
    | .ok deep =>
      match deepLoop env base_url keyword rest (sid + 1) with
      | .error e => .error e
      | .ok recs => .ok (mkHarvestRecord base_url keyword sid p deep :: recs)

/-- `search_amazon` (amazon_scraper.py:529-583): pagination discovery, the
optional screenshot pass, candidate listing with cap, then deep extraction;
the value returned at amazon_scraper.py:583, or the exception that escaped. -/
def search_amazon_run (env : PipelineEnv) (base_url keyword : String)
    (max_results : Option Nat) : Except Err (List HarvestRecord) := do
  let pages ← env.pagesOutcome
  let _ ← (match env.savePagesOutcome with
    | some r => r
    | Option.none => Except.ok ())
  let found ← listingLoop env base_url max_results pages []
  let capped := match maxCap max_results with
    | some m => found.take m
    | Option.none => found
  deepLoop env base_url keyword capped 1

/-- `driver.quit()` (amazon_scraper.py:581) is the last statement before the
return and is guarded by no try/finally, so it executes exactly when no
stage raised. -/
def searchAmazonQuitCalled (env : PipelineEnv) (base_url keyword : String)
    (max_results : Option Nat) : Bool :=
  match search_amazon_run env base_url keyword max_results with
  | .ok _ => true
  | .error _ => false

/-- `int(s)` digit accumulation. -/
def digitsVal (ds : List Char) : Nat :=
  ds.foldl (fun a c => a * 10 + (c.toNat - 48)) 0

/-- Leading/trailing whitespace removal as `int(str)` performs it. -/
def stripEnds (cs : List Char) : List Char :=
  ((cs.dropWhile Char.isWhitespace).reverse.dropWhile Char.isWhitespace).reverse

/-- `int(s)` for decimal literals: optional sign followed by at least one
digit after stripping surrounding whitespace; anything else raises
`ValueError`. -/
def pyInt (s : String) : Except Err Int :=
  match stripEnds s.data with
  | '-' :: ds =>
    if ds ≠ [] ∧ ds.all Char.isDigit then .ok (-(digitsVal ds : Int))
    else .error (.valueError ("invalid literal for int: " ++ s))
  | '+' :: ds =>
    if ds ≠ [] ∧ ds.all Char.isDigit then .ok (digitsVal ds : Int)
    else .error (.valueError ("invalid literal for int: " ++ s))
  | ds =>
    if ds ≠ [] ∧ ds.all Char.isDigit then .ok (digitsVal ds : Int)
    else .error (.valueError ("invalid literal for int: " ++ s))

/-- Worker for `replaceSub`: the counter says how many further characters
belong to an already-matched occurrence and are dropped without a new
match attempt. -/
def replaceSubAux (pat sub : List Char) : List Char → Nat → List Char
  | [], _ => []
  | _ :: cs, k + 1 => replaceSubAux pat sub cs k
  | c :: cs, 0 =>
    if pat ≠ [] ∧ pat.isPrefixOf (c :: cs) then
      sub ++ replaceSubAux pat sub cs (pat.length - 1)
    else c :: replaceSubAux pat sub cs 0

/-- `s.replace(pat, sub)` for a non-empty multi-character pattern:
non-overlapping, left to right. -/
def replaceSub (pat sub : List Char) (cs : List Char) : List Char :=
  replaceSubAux pat sub cs 0

/-- What the driver observes during pagination discovery
(`get_search_result_pages`, amazon_scraper.py:238-288): whether selectors
are configured for the `search_box` and `number_of_pages` keys, whether those
elements are present on the result page, the text content of the page-count
element, and `driver.current_url` after the search was submitted.
(Navigation, readiness waiting and the cookie dismissal are taken as
succeeding; their failures are not at issue in the claims.) -/
structure SearchPagesEnv where
  searchBoxConfigured : Bool := true
  searchBoxPresent : Bool := true
  pageCountConfigured : Bool := true
  pageCountPresent : Bool := true
  pageCountText : String := "1"
  resultUrl : String := "https://www.amazon.com/s?k=kw&ref=nb_sb_noss"

/-- `wait_element` (amazon_scraper.py:126-161) as observed through the
environment: no configured selectors means return at once; otherwise poll
and raise `NoSuchElementException` when the element never appears. -/
def waitElementOutcome (configured present : Bool) (key : String) : Except Err Unit :=
  if !configured then .ok ()
  else if present then .ok ()
  else .error (.noSuchElement ("Element not found: " ++ key))

/-- `find_attribute` (amazon_scraper.py:164-187) as observed through the
environment: the element's attribute when a configured selector matches,
the default otherwise. -/
def findAttributeValue (configured present : Bool) (text default : String) : String :=
  if configured && present then text else default

/-- The pagination URL for page index `p`
(amazon_scraper.py:284): `current_url.replace('nb_sb_noss', f'sr_pg_{p}') +
f"&page={p+1}"`. -/
def paginationUrl (currentUrl : String) (p : Nat) : String :=
  String.mk (replaceSub "nb_sb_noss".data ("sr_pg_" ++ toString p).data currentUrl.data)
    ++ "&page=" ++ toString (p + 1)

/-- `get_search_result_pages` (amazon_scraper.py:238-288): require the search
box; read the page-count element (default text `'0'`), parse it with `int`,
raise when it parses to `0`; re-read with default `'1'`; clamp by
`max_search_result_pages` when that is truthy; synthesize one URL per page. -/
def get_search_result_pages (env : SearchPagesEnv) (maxPages : Option Nat) :
    Except Err (List String) := do
  let _ ← waitElementOutcome env.searchBoxConfigured env.searchBoxPresent "search_box"
  let _ ← (if env.searchBoxConfigured && env.searchBoxPresent then Except.ok ()
    else Except.error (Err.noSuchElement "Search box not found"))
  let _ ← waitElementOutcome env.pageCountConfigured env.pageCountPresent "number_of_pages"
  let attrib := findAttributeValue env.pageCountConfigured env.pageCountPresent
    env.pageCountText "0"
  let n1 ← pyInt attrib
  let _ ← (if n1 = 0 then Except.error (Err.valueError "Number of pages is 0")
    else Except.ok ())
  let n2 ← pyInt (findAttributeValue env.pageCountConfigured env.pageCountPresent
    env.pageCountText "1")
  let number : Int := match maxCap maxPages with
    | some m => min n2 (m : Int)
    | Option.none => n2
  if 1 < number then
    return env.resultUrl :: ((List.range number.toNat).drop 1).map (paginationUrl env.resultUrl)
  else
    return [env.resultUrl]

/-! Concrete fixtures used by the claim theorems, their counterexamples and
their witnesses. -/

/-- A container whose `data-asin` attribute is `"AAA"`. -/
def containerA : ProductContainer := { asin := some "AAA", url := PyVal.str "u1" }

/-- A container whose `data-asin` attribute is absent. -/
def containerNoAsin : ProductContainer := { asin := Option.none, url := PyVal.str "u2" }

/-- A container whose `data-asin` attribute is `"BBB"`. -/
def containerB : ProductContainer := { asin := some "BBB", url := PyVal.str "u3" }

/-- A container whose field extraction raises `NoSuchElementException`. -/
def containerRaising : ProductContainer :=
  { asin := some "CCC", url := PyVal.str "u4", raisesNoSuchElement := true }

/-- Deep extraction that raises a non-timeout error exactly for the second
candidate (the one whose container is `containerNoAsin`). -/
def deepFailsSecond : Product → Except Err DeepInfo := fun p =>
  if p.simplified_url = "https://www.amazon.com/dp/None" then
    Except.error (Err.noSuchElement "deep extraction failed")
  else Except.ok { image_urls := ["http://img/a.jpg"] }

/-- A run in which listing yields three candidates and deep extraction
raises a non-timeout error for the second one. -/
def envC1 : PipelineEnv :=
  { pagesOutcome := Except.ok ["page1"]
    pageContainers := fun _ => Except.ok [containerA, containerNoAsin, containerB]
    deepOutcome := deepFailsSecond }

/-- A run in which locating the product containers of the (only) listing
page raises. -/
def envC3 : PipelineEnv :=
  { pagesOutcome := Except.ok ["page1"]
    pageContainers := fun _ => Except.error (Err.stale "stale element reference")
    deepOutcome := fun _ => Except.ok {} }

/-- A run in which every stage succeeds. -/
def envAllOk : PipelineEnv :=
  { pagesOutcome := Except.ok ["page1"]
    pageContainers := fun _ => Except.ok [containerA, containerB]
    deepOutcome := fun _ => Except.ok { image_urls := ["http://img/a.jpg"] } }

/-- The nested mapping `{"a": {"b": 1}}`, written in one consistent
(nested, dot-addressable) key style. -/
def nestedAB : PyVal := PyVal.dict [("a", PyVal.dict [("b", PyVal.int 1)])]

/-- The mapping `{"a": None}`: the key `a` is present and holds `None`. -/
def mapANone : PyVal := PyVal.dict [("a", PyVal.none)]

/-- The claim's reading of "some expanded alternative path reaches a present
key": after alias expansion, some alternative's traversal finds every
component present. -/
def reachesPresent (data : PyVal) (paths : List String) : Bool :=
  paths.any (fun p => (dotexpand p).any (fun k => (reaches data (pySplit '.' k)).isSome))

/-- The body of `dotget` for a single expanded key: `some` of the walked
value when it is non-`None`. -/
def tryKey (data : PyVal) (key : String) : Option PyVal :=
  let d := dotwalk data (pySplit '.' key)
  if d.isNone then Option.none else some d

/-- An operation that fails once with a catchable error, then returns 7. -/
def opOnceFailing : Nat → Except Err PyVal := fun i =>
  if i = 0 then Except.error (Err.timeout "t") else Except.ok (PyVal.int 7)

/-- A configuration whose mapping is `{"x": 1}` (no key `a`). -/
def cfgX : Config := { data := PyVal.dict [("x", PyVal.int 1)], context := "default" }

/-- A configuration whose mapping is `{"a": 0}` (key `a` present, falsy). -/
def cfgA0 : Config := { data := PyVal.dict [("a", PyVal.int 0)], context := "default" }

/-- The built context installed under the name `default` in `storeTwo`. -/
def cfgDefault : Config := { data := PyVal.dict [("k", PyVal.int 1)], context := "default" }

/-- The built context installed under the name `c` in `storeTwo`. -/
def cfgC : Config := { data := PyVal.dict [("k", PyVal.int 2)], context := "c" }

/-- A store with two built contexts, `default` (current) and `c`. -/
def storeTwo : StoreState :=
  { store := [("default", StoreEntry.built cfgDefault), ("c", StoreEntry.built cfgC)]
    context := "default" }

/-- An empty store whose current-context name is `default`. -/
def storeEmpty : StoreState := { store := [], context := "default" }

/-- A configuration passed as a `Config`-typed source in the C9 witness. -/
def cfgW : Config := { data := PyVal.dict [("k", PyVal.int 3)], context := "" }

/-- The configuration `cfgW` as (re)stamped by `_set_config` for context `c2`. -/
def cfgW2 : Config := { data := PyVal.dict [("k", PyVal.int 3)], context := "c2" }

/-- The store produced by configuring `storeEmpty` with `cfgW` under `c2`. -/
def storeW2 : StoreState :=
  { store := [("c2", StoreEntry.built cfgW2)], context := "c2" }

/-- The value `dotget`'s walk produces, as a view on the spec-side `reaches`
traversal: a reached `None` (or an unreached path) reads as a miss. -/
def missFilter : Option PyVal → PyVal
  | some v => if v.isNone then PyVal.none else v
  | Option.none => PyVal.none

/-! The claim theorems. -/

/-- C1: the claim says a candidate whose deep extraction raises a non-timeout
error is dropped without aborting the run, leaving dense sort ids
(`0001`, `0002` for survivors 1 and 3). The source's deep-extraction loop
(amazon_scraper.py:568-580) has no per-candidate exception handling: on the
run `envC1` — three listed candidates, a non-timeout
`NoSuchElementException` from deep extraction of candidate 2 — the
exception propagates, the run aborts with no records at all, and
`driver.quit()` is never reached. -/
theorem search_amazon_nontimeout_deep_failure_aborts_run :
    search_amazon_run envC1 "https://www.amazon.com" "kw" Option.none
      = Except.error (Err.noSuchElement "deep extraction failed") ∧
    searchAmazonQuitCalled envC1 "https://www.amazon.com" "kw" Option.none = false := by
  exact ⟨rfl, rfl⟩

/-- C2: the claim says that when the page-count element is absent or
reading/parsing it throws, pagination discovery assumes a single page and
returns a one-element page list without raising. The source
(amazon_scraper.py:256-288) instead raises on each such input: an
unparseable page-count text propagates `ValueError` from `int(...)`; an
absent element makes `wait_element` raise `NoSuchElementException`; and with
no selectors configured the `'0'` default trips the explicit
`ValueError("Number of pages is 0")`. (The repository's own test
`test_get_search_result_pages_with_exception` asserts the claimed one-page
fallback.) -/
theorem get_search_result_pages_failure_raises :
    get_search_result_pages { pageCountText := "two" } Option.none
      = Except.error (Err.valueError "invalid literal for int: two") ∧
    get_search_result_pages { pageCountPresent := false } Option.none
      = Except.error (Err.noSuchElement "Element not found: number_of_pages") ∧
    get_search_result_pages { pageCountConfigured := false } Option.none
      = Except.error (Err.valueError "Number of pages is 0") := by
  exact ⟨rfl, rfl, rfl⟩

/-- C3: the claim says the browser session acquired at the start of
`search_amazon` is released on every exit path, including exceptions inside
a pipeline stage. `driver.quit()` (amazon_scraper.py:581) is guarded by no
try/finally: on the run `envC3`, where the candidate-listing stage raises,
the exception escapes `search_amazon` without the quit executing (the
workflow boundary catches and logs it, but cannot reach the driver created
inside `search_amazon`); on the all-success run the quit does execute. -/
theorem search_amazon_session_leak_on_stage_exception :
    search_amazon_run envC3 "https://www.amazon.com" "kw" Option.none
      = Except.error (Err.stale "stale element reference") ∧
    searchAmazonQuitCalled envC3 "https://www.amazon.com" "kw" Option.none = false ∧
    searchAmazonQuitCalled envAllOk "https://www.amazon.com" "kw" Option.none = true := by
  exact ⟨rfl, rfl, rfl⟩


theorem PyVal.isNone_iff (v : PyVal) : v.isNone = true ↔ v = PyVal.none := by
  cases v <;> simp [PyVal.isNone]

theorem reaches_none_cons (a : String) (rest : List String) :
    reaches PyVal.none (a :: rest) = Option.none := rfl

theorem dotwalk_eq_missFilter_reaches (ks : List String) (data : PyVal) :
    dotwalk data ks = missFilter (reaches data ks) := by
  induction ks generalizing data with
  | nil => cases data <;> rfl
  | cons a rest ih =>
    cases data with
    | dict kvs =>
      simp only [dotwalk, reaches]
      cases h : kvs.lookup a with
      | none => simp [pyDictGet, h, PyVal.isNone, missFilter]
      | some v =>
        simp only [pyDictGet, h, Option.getD]
        cases hv : v.isNone with
        | true =>
          rw [PyVal.isNone_iff] at hv
          subst hv
          cases rest <;> simp [reaches, missFilter, PyVal.isNone]
        | false => simp [hv, ih]
    | none => simp [dotwalk, pyDictGet, reaches, PyVal.isNone, missFilter]
    | bool b => simp [dotwalk, pyDictGet, reaches, PyVal.isNone, missFilter]
    | int n => simp [dotwalk, pyDictGet, reaches, PyVal.isNone, missFilter]
    | str t => simp [dotwalk, pyDictGet, reaches, PyVal.isNone, missFilter]
    | list l => simp [dotwalk, pyDictGet, reaches, PyVal.isNone, missFilter]

theorem tryKey_eq_none_iff (data : PyVal) (k : String) :
    tryKey data k = Option.none ↔
      ∀ v, reaches data (pySplit '.' k) = some v → v = PyVal.none := by
  unfold tryKey
  rw [dotwalk_eq_missFilter_reaches]
  cases h : reaches data (pySplit '.' k) with
  | none => simp [missFilter, PyVal.isNone]
  | some v =>
    cases hv : v.isNone with
    | true =>
      rw [PyVal.isNone_iff] at hv
      subst hv
      simp [missFilter, PyVal.isNone]
    | false =>
      have : v ≠ PyVal.none := by
        intro hh; subst hh; simp [PyVal.isNone] at hv
      simp [missFilter, hv, this]

theorem tryKey_ne_none (data : PyVal) (k : String) (v : PyVal)
    (h : tryKey data k = some v) : v ≠ PyVal.none := by
  unfold tryKey at h
  cases hv : (dotwalk data (pySplit '.' k)).isNone with
  | true => simp [hv] at h
  | false =>
    simp [hv] at h
    subst h
    intro hh
    rw [hh] at hv
    simp [PyVal.isNone] at hv

theorem dotget_eq_match (data : PyVal) (p : String) (default : PyVal) :
    dotget data p default =
      (match (dotexpand p).findSome? (tryKey data) with
       | some v => v
       | Option.none => default) := rfl

theorem splitChar_ne_nil (c : Char) (cs : List Char) : splitChar c cs ≠ [] := by
  induction cs with
  | nil => simp [splitChar]
  | cons x xs ih =>
    simp only [splitChar]
    split
    · simp
    · split <;> simp_all

theorem pySplit_ne_nil (c : Char) (s : String) : pySplit c s ≠ [] := by
  unfold pySplit
  simp [splitChar_ne_nil]

theorem pyDictGet_of_falsy (data : PyVal) (a : String) (h : pyTruthy data = false) :
    pyDictGet data a = PyVal.none := by
  cases data with
  | dict kvs =>
    simp [pyTruthy] at h
    simp [pyDictGet, h]
  | none => rfl
  | bool b => rfl
  | int n => rfl
  | str t => rfl
  | list l => rfl

theorem tryKey_of_falsy (data : PyVal) (k : String) (h : pyTruthy data = false) :
    tryKey data k = Option.none := by
  unfold tryKey
  cases hs : pySplit '.' k with
  | nil => exact absurd hs (pySplit_ne_nil '.' k)
  | cons a rest =>
    simp [dotwalk, pyDictGet_of_falsy data a h, PyVal.isNone]

theorem dgetHit_eq (data : PyVal) (paths : List String) :
    dgetHit data paths =
      paths.findSome? (fun p => (dotexpand p).findSome? (tryKey data)) := by
  unfold dgetHit
  congr 1
  funext p
  rw [dotget_eq_match]
  cases h : (dotexpand p).findSome? (tryKey data) with
  | none => simp [PyVal.isNone]
  | some v =>
    obtain ⟨k, _, hk⟩ := List.exists_of_findSome?_eq_some h
    have hv : v ≠ PyVal.none := tryKey_ne_none data k v hk
    have : v.isNone = false := by
      cases hvi : v.isNone with
      | true => exact absurd ((PyVal.isNone_iff v).mp hvi) hv
      | false => rfl
    simp [this]

theorem dget_eq_getD (data : PyVal) (paths : List String) (default : PyVal) :
    dget data paths default = (dgetHit data paths).getD default := by
  unfold dget dgetHit
  cases ht : pyTruthy data with
  | false =>
    simp only [ht]
    have : ∀ p ∈ paths,
        (fun p => let d := dotget data p PyVal.none
                  if d.isNone then Option.none else some d) p = Option.none := by
      intro p _
      simp only []
      rw [dotget_eq_match]
      have : (dotexpand p).findSome? (tryKey data) = Option.none := by
        rw [List.findSome?_eq_none_iff]
        intro k _
        exact tryKey_of_falsy data k ht
      simp [this, PyVal.isNone]
    rw [List.findSome?_eq_none_iff.mpr this]
    rfl
  | true =>
    simp only [ht]
    cases h : paths.findSome?
        (fun p => let d := dotget data p PyVal.none
                  if d.isNone then Option.none else some d) <;> simp

theorem dgetHit_none_iff (data : PyVal) (paths : List String) :
    dgetHit data paths = Option.none ↔
      ∀ p ∈ paths, ∀ k ∈ dotexpand p, ∀ v,
        reaches data (pySplit '.' k) = some v → v = PyVal.none := by
  rw [dgetHit_eq, List.findSome?_eq_none_iff]
  constructor
  · intro h p hp k hk v hv
    have := h p hp
    rw [List.findSome?_eq_none_iff] at this
    exact (tryKey_eq_none_iff data k).mp (this k hk) v hv
  · intro h p hp
    rw [List.findSome?_eq_none_iff]
    intro k hk
    exact (tryKey_eq_none_iff data k).mpr (fun v hv => h p hp k hk v hv)

theorem dgetHit_some_ne_none (data : PyVal) (paths : List String) (v : PyVal)
    (h : dgetHit data paths = some v) : v ≠ PyVal.none := by
  rw [dgetHit_eq] at h
  obtain ⟨p, _, hp⟩ := List.exists_of_findSome?_eq_some h
  obtain ⟨k, _, hk⟩ := List.exists_of_findSome?_eq_some hp
  exact tryKey_ne_none data k v hk

/-- C4 (amended): `resolve_path` (`dget`) returns the first non-`None` hit
over its alternative paths and otherwise the supplied default, where a hit
is a present key holding a non-`None` value; a hit is never `None`, so a
present key holding a falsy-but-not-`None` value (`0`, `""`, `False`) is
returned, while a present key holding `None` — the resolver's missing
sentinel — falls through exactly like an absent key. -/
theorem resolve_path_default_iff_no_present_value
    (data : PyVal) (paths : List String) (default : PyVal) :
    dget data paths default = (dgetHit data paths).getD default ∧
    (∀ v, dgetHit data paths = some v → v ≠ PyVal.none) ∧
    (dgetHit data paths = Option.none ↔
      ∀ p ∈ paths, ∀ k ∈ dotexpand p, ∀ v,
        reaches data (pySplit '.' k) = some v → v = PyVal.none) :=
  ⟨dget_eq_getD data paths default, dgetHit_some_ne_none data paths,
    dgetHit_none_iff data paths⟩

theorem resolve_path_witness :
    dget (PyVal.dict [("a", PyVal.int 0)]) ["b", "a"] (PyVal.int 7)
      = (dgetHit (PyVal.dict [("a", PyVal.int 0)]) ["b", "a"]).getD (PyVal.int 7) ∧
    dgetHit (PyVal.dict [("a", PyVal.int 0)]) ["b", "a"] = some (PyVal.int 0) :=
  ⟨(resolve_path_default_iff_no_present_value
      (PyVal.dict [("a", PyVal.int 0)]) ["b", "a"] (PyVal.int 7)).1, rfl⟩

/-- C4 (counterexample): in `{"a": None}` the path `a` reaches a present
key, yet `dget` returns the supplied default `7` — refuting "returns the
default if and only if no expanded alternative path reaches a present
key". -/
theorem present_none_key_falls_through :
    reachesPresent mapANone ["a"] = true ∧
    dget mapANone ["a"] (PyVal.int 7) = PyVal.int 7 ∧
    ¬ (dget mapANone ["a"] (PyVal.int 7) = PyVal.int 7 →
        reachesPresent mapANone ["a"] = false) :=
  ⟨rfl, rfl, fun h => absurd (h rfl) (by decide)⟩

theorem splitChar_of_no_sep (c : Char) (cs : List Char) (h : cs.contains c = false) :
    splitChar c cs = [cs] := by
  induction cs with
  | nil => rfl
  | cons x xs ih =>
    simp only [List.contains_cons, Bool.or_eq_false_iff] at h
    have hx : ¬ x = c := by
      intro hh
      subst hh
      simp at h
    simp only [splitChar, if_neg hx, ih h.2]

theorem string_eta (s : String) : String.mk s.data = s := rfl

theorem pySplit_of_no_sep (c : Char) (s : String) (h : pyContainsChar c s = false) :
    pySplit c s = [s] := by
  unfold pySplit
  rw [splitChar_of_no_sep c s.data h]
  simp [string_eta]

theorem contains_ne_empty (c : Char) (p : String) (h : pyContainsChar c p = true) :
    p ≠ "" := by
  intro hp
  subst hp
  simp [pyContainsChar] at h

theorem dotexpand_colon (p : String) (h1 : pyStripSpaces p = p)
    (h2 : pyContainsChar ',' p = false) (h3 : pyContainsChar ':' p = true) :
    dotexpand p = [pyReplaceChar ':' '.' p, pyReplaceChar ':' '_' p] := by
  unfold dotexpand
  rw [h1, pySplit_of_no_sep ',' p h2]
  simp [contains_ne_empty ':' p h3, h3]

/-- C5 (amended): an alternative written with `':'` — and no comma or space —
expands into exactly the `'.'`-substituted path followed by the
`'_'`-substituted one, and resolution tries them in that order: the dot
spelling first, the underscore spelling only when the dot spelling misses.
(The counterexample shows `'.'` and `'_'` spellings themselves are *not*
interchangeable.) -/
theorem colon_path_expansion_and_resolution
    (data : PyVal) (p : String) (default : PyVal) (h1 : pyStripSpaces p = p)
    (h2 : pyContainsChar ',' p = false) (h3 : pyContainsChar ':' p = true) :
    dotexpand p = [pyReplaceChar ':' '.' p, pyReplaceChar ':' '_' p] ∧
    dotget data p default =
      (match tryKey data (pyReplaceChar ':' '.' p) with
       | some v => v
       | Option.none =>
         match tryKey data (pyReplaceChar ':' '_' p) with
         | some v => v
         | Option.none => default) := by
  refine ⟨dotexpand_colon p h1 h2 h3, ?_⟩
  rw [dotget_eq_match, dotexpand_colon p h1 h2 h3]
  cases h : tryKey data (pyReplaceChar ':' '.' p) with
  | some v => simp [List.findSome?, h]
  | none =>
    cases h' : tryKey data (pyReplaceChar ':' '_' p) with
    | some v => simp [List.findSome?, h, h']
    | none => simp [List.findSome?, h, h']

theorem colon_path_witness :
    dotexpand "a:b" = ["a.b", "a_b"] ∧
    dotget nestedAB "a:b" (PyVal.int 9) = PyVal.int 1 := by
  have h := colon_path_expansion_and_resolution nestedAB "a:b" (PyVal.int 9) rfl
    (by decide) (by decide)
  exact ⟨h.1.trans (by decide), h.2.trans rfl⟩

/-- C5 (counterexample): on the consistently nested mapping
`{"a": {"b": 1}}` the `'.'` spelling resolves to `1` while the `'_'`
spelling misses — the separators are not interchangeable. -/
theorem separator_styles_disagree :
    dotget nestedAB "a.b" PyVal.none = PyVal.int 1 ∧
    dotget nestedAB "a_b" PyVal.none = PyVal.none ∧
    ¬ (dotget nestedAB "a.b" PyVal.none = dotget nestedAB "a_b" PyVal.none) :=
  ⟨rfl, rfl, fun h => PyVal.noConfusion h⟩

theorem retryGo_success (op : Nat → Except Err PyVal) (catches : Err → Bool)
    (default : PyVal) :
    ∀ (k fuel attempt : Nat) (v : PyVal), k < fuel →
    (∀ i < k, ∃ e, op (attempt + i) = .error e ∧ catches e = true) →
    op (attempt + k) = .ok v →
    retryGo op catches default attempt fuel = (.ok v, k + 1) := by
  intro k
  induction k with
  | zero =>
    intro fuel attempt v hk _ hop
    cases fuel with
    | zero => omega
    | succ f =>
      simp only [Nat.add_zero] at hop
      simp [retryGo, hop]
  | succ k ih =>
    intro fuel attempt v hk hfail hop
    cases fuel with
    | zero => omega
    | succ f =>
      obtain ⟨e, he, hce⟩ := hfail 0 (by omega)
      simp only [Nat.add_zero] at he
      have hf : f ≠ 0 := by omega
      simp only [retryGo, he, hce, if_pos rfl, if_neg hf]
      have := ih f (attempt + 1) v (by omega)
        (fun i hi => by
          have := hfail (i + 1) (by omega)
          simpa [Nat.add_assoc, Nat.add_comm 1 i] using this)
        (by simpa [Nat.add_assoc, Nat.add_comm 1 k] using hop)
      simp [this]

theorem retryGo_succ_eq (op : Nat → Except Err PyVal) (catches : Err → Bool)
    (default : PyVal) (attempt fuel : Nat) :
    retryGo op catches default attempt (fuel + 1) =
      (match op attempt with
       | .ok v => (.ok v, 1)
       | .error e =>
         if catches e then
           if fuel = 0 then
             (if default.isNone then .error e else .ok default, 1)
           else
             let r := retryGo op catches default (attempt + 1) fuel
             (r.1, r.2 + 1)
         else (.error e, 1)) := rfl

theorem retryGo_exhausted (op : Nat → Except Err PyVal) (catches : Err → Bool)
    (default : PyVal) :
    ∀ (fuel attempt : Nat) (e : Err), 0 < fuel →
    (∀ i < fuel, ∃ ei, op (attempt + i) = .error ei ∧ catches ei = true) →
    op (attempt + (fuel - 1)) = .error e →
    retryGo op catches default attempt fuel =
      (if default.isNone then .error e else .ok default, fuel) := by
  intro fuel
  induction fuel with
  | zero => omega
  | succ f ih =>
    intro attempt e _ hfail hlast
    obtain ⟨e0, he0, hce0⟩ := hfail 0 (by omega)
    simp only [Nat.add_zero] at he0
    rw [retryGo_succ_eq, he0]
    cases hf : f with
    | zero =>
      subst hf
      have hlast' : op attempt = Except.error e := by simpa using hlast
      have : e0 = e := by
        rw [he0] at hlast'
        exact Except.error.inj hlast'
      subst this
      simp [hce0]
    | succ f' =>
      subst hf
      have hrec := ih (attempt + 1) e (by omega)
        (fun i hi => by
          have := hfail (i + 1) (by omega)
          simpa [Nat.add_assoc, Nat.add_comm 1 i] using this)
        (by
          have : attempt + 1 + (f' + 1 - 1) = attempt + (f' + 1 + 1 - 1) := by omega
          rw [this]
          exact hlast)
      simp [hce0, hrec]

theorem retryGo_nonmatching (op : Nat → Except Err PyVal) (catches : Err → Bool)
    (default : PyVal) :
    ∀ (j fuel attempt : Nat) (e : Err), j < fuel →
    (∀ i < j, ∃ ei, op (attempt + i) = .error ei ∧ catches ei = true) →
    op (attempt + j) = .error e → catches e = false →
    retryGo op catches default attempt fuel = (.error e, j + 1) := by
  intro j
  induction j with
  | zero =>
    intro fuel attempt e hj _ hop hnc
    cases fuel with
    | zero => omega
    | succ f =>
      simp only [Nat.add_zero] at hop
      rw [retryGo_succ_eq, hop]
      simp [hnc]
  | succ j ih =>
    intro fuel attempt e hj hfail hop hnc
    cases fuel with
    | zero => omega
    | succ f =>
      obtain ⟨e0, he0, hce0⟩ := hfail 0 (by omega)
      simp only [Nat.add_zero] at he0
      rw [retryGo_succ_eq, he0]
      have hf : f ≠ 0 := by omega
      have hrec := ih f (attempt + 1) e (by omega)
        (fun i hi => by
          have := hfail (i + 1) (by omega)
          simpa [Nat.add_assoc, Nat.add_comm 1 i] using this)
        (by simpa [Nat.add_assoc, Nat.add_comm 1 j] using hop) hnc
      simp [hce0, hf, hrec]

/-- C6: the retry combinator (utility.py:38-61). An operation that fails
`k < times` times with filter-matching errors and then succeeds returns the
success value after exactly `k+1` invocations; an operation whose first
`times` invocations all fail with matching errors is invoked exactly `times`
times and the combinator then returns the configured default, or re-raises
the last failure when no default (`None`) was configured; a failure not
matching the filter propagates immediately after the invocation that raised
it, with the remaining attempts unconsumed. -/
theorem retry_combinator_spec (times : Nat) (op : Nat → Except Err PyVal)
    (catches : Err → Bool) (default : PyVal) :
    (∀ k v, k < times →
      (∀ i < k, ∃ e, op i = .error e ∧ catches e = true) →
      op k = .ok v →
      retry times op catches default = (.ok v, k + 1)) ∧
    (∀ e, 0 < times →
      (∀ i < times, ∃ ei, op i = .error ei ∧ catches ei = true) →
      op (times - 1) = .error e →
      retry times op catches default =
        (if default.isNone then .error e else .ok default, times)) ∧
    (∀ j e, j < times →
      (∀ i < j, ∃ ei, op i = .error ei ∧ catches ei = true) →
      op j = .error e → catches e = false →
      retry times op catches default = (.error e, j + 1)) := by
  refine ⟨?_, ?_, ?_⟩
  · intro k v hk hfail hop
    exact retryGo_success op catches default k times 0 v hk
      (fun i hi => by simpa using hfail i hi) (by simpa using hop)
  · intro e ht hfail hlast
    exact retryGo_exhausted op catches default times 0 e ht
      (fun i hi => by simpa using hfail i hi) (by simpa using hlast)
  · intro j e hj hfail hop hnc
    exact retryGo_nonmatching op catches default j times 0 e hj
      (fun i hi => by simpa using hfail i hi) (by simpa using hop) hnc

theorem retry_combinator_witness :
    retry 3 opOnceFailing (fun _ => true) PyVal.none = (.ok (PyVal.int 7), 2) :=
  (retry_combinator_spec 3 opOnceFailing (fun _ => true) PyVal.none).1 1 (PyVal.int 7)
    (by omega)
    (fun i hi => by
      interval_cases i
      exact ⟨Err.timeout "t", rfl, rfl⟩)
    rfl

/-- C7 (amended): the listing stage produces one record per container whose
field extraction does not raise — a raising container is skipped, not fatal
to the page — and every produced record is the extraction of some
non-raising container, with
`simplified_url = base_url + "/dp/" + str(asin)`. A container whose asin
attribute is merely absent is *not* skipped: it yields a record whose asin
is `None` (see the counterexample). -/
theorem get_products_skips_only_raising_containers
    (base_url : String) (cs : List ProductContainer) :
    (get_products base_url cs).length
      = (cs.filter (fun c => !c.raisesNoSuchElement)).length ∧
    ∀ p ∈ get_products base_url cs, ∃ c ∈ cs, c.raisesNoSuchElement = false ∧
      p = extractProduct base_url c ∧
      p.simplified_url = base_url ++ "/dp/" ++ asinStr c.asin := by
  constructor
  · induction cs with
    | nil => rfl
    | cons c rest ih =>
      cases hc : c.raisesNoSuchElement <;>
        simp [get_products, List.filter, hc, ih] <;>
        simpa [get_products] using ih
  · induction cs with
    | nil => intro p hp; simp [get_products] at hp
    | cons c rest ih =>
      intro p hp
      cases hc : c.raisesNoSuchElement with
      | true =>
        simp only [get_products, List.foldr, hc, if_pos rfl] at hp
        obtain ⟨c', hmem, h1, h2, h3⟩ := ih p (by simpa [get_products] using hp)
        exact ⟨c', List.mem_cons_of_mem c hmem, h1, h2, h3⟩
      | false =>
        simp only [get_products, List.foldr, hc, Bool.false_eq_true, if_false] at hp
        rw [List.mem_cons] at hp
        rcases hp with rfl | hp
        · exact ⟨c, List.mem_cons_self c rest, hc, rfl, rfl⟩
        · obtain ⟨c', hmem, h1, h2, h3⟩ := ih p (by simpa [get_products] using hp)
          exact ⟨c', List.mem_cons_of_mem c hmem, h1, h2, h3⟩

theorem get_products_witness :
    (get_products "https://www.amazon.com" [containerA, containerRaising]).length
      = (([containerA, containerRaising]).filter
          (fun c => !c.raisesNoSuchElement)).length :=
  (get_products_skips_only_raising_containers "https://www.amazon.com"
    [containerA, containerRaising]).1

/-- C7 (counterexample): three containers of which two have a resolvable
asin and none raises — `get_products` yields 3 records, not 2; the asin-less
container is not skipped and its record's `simplified_url` is
`base_url + "/dp/None"`. -/
theorem missing_asin_container_not_skipped :
    (get_products "https://www.amazon.com"
        [containerA, containerNoAsin, containerB]).length = 3 ∧
    ¬ ((get_products "https://www.amazon.com"
        [containerA, containerNoAsin, containerB]).length = 2) ∧
    (get_products "https://www.amazon.com"
        [containerA, containerNoAsin, containerB]).map (fun p => p.simplified_url)
      = ["https://www.amazon.com/dp/AAA", "https://www.amazon.com/dp/None",
         "https://www.amazon.com/dp/BBB"] :=
  ⟨rfl, by decide, rfl⟩

theorem mandatory_resolve_error (cfg : Config) (key : String)
    (after : Option (PyVal → PyVal)) (hex : cfg.pathExists key = false) :
    ConfigValue.resolve
        { key := key, default := PyVal.none, after := after, mandatory := true } cfg
      = .error (.mandatoryMissing key) := by
  simp [ConfigValue.resolve, hex, pyTruthy]

theorem mandatory_resolve_ok (cfg : Config) (key : String)
    (after : Option (PyVal → PyVal)) (hex : cfg.pathExists key = true) :
    ∃ v, ConfigValue.resolve
        { key := key, default := PyVal.none, after := after, mandatory := true } cfg
      = .ok v := by
  unfold ConfigValue.resolve
  simp only [hex, pyTruthy]
  split
  · simp_all
  · split
    · split
      · exact ⟨_, rfl⟩
      · exact ⟨_, rfl⟩
    · exact ⟨_, rfl⟩

/-- C8: resolving a Deferred Value that is mandatory and has no default
(inject.py:45-58) fails with the mandatory-missing `ConfigError` exactly when
`path_exists` is false for its key on the active context's mapping, and
succeeds otherwise, returning the resolved value. -/
theorem mandatory_no_default_resolution (cfg : Config) (key : String)
    (after : Option (PyVal → PyVal)) :
    (ConfigValue.resolve
        { key := key, default := PyVal.none, after := after, mandatory := true } cfg
      = .error (.mandatoryMissing key) ↔ cfg.pathExists key = false) ∧
    (cfg.pathExists key = true →
      ∃ v, ConfigValue.resolve
          { key := key, default := PyVal.none, after := after, mandatory := true } cfg
        = .ok v) := by
  refine ⟨⟨?_, mandatory_resolve_error cfg key after⟩, mandatory_resolve_ok cfg key after⟩
  intro h
  cases hex : cfg.pathExists key with
  | false => rfl
  | true =>
    obtain ⟨v, hok⟩ := mandatory_resolve_ok cfg key after hex
    rw [hok] at h
    cases h

theorem mandatory_no_default_witness :
    ConfigValue.resolve
        { key := "a", default := PyVal.none, after := Option.none, mandatory := true } cfgX
      = .error (.mandatoryMissing "a") ∧
    ∃ v, ConfigValue.resolve
        { key := "a", default := PyVal.none, after := Option.none, mandatory := true } cfgA0
      = .ok v :=
  ⟨(mandatory_no_default_resolution cfgX "a" Option.none).1.mpr rfl,
   (mandatory_no_default_resolution cfgA0 "a" Option.none).2 rfl⟩

/-- C10: a mandatory Deferred Value whose supplied default is falsy
(`0`, `""`, `False`) is treated by `resolve` as having no default at all —
the guard is `not self.default`, not `self.default is None`
(inject.py:51) — so when the key is absent resolution raises the
mandatory-missing error instead of returning the falsy default. -/
theorem falsy_default_mandatory_raises (cfg : Config) (key : String) (d : PyVal)
    (hd : pyTruthy d = false) (hex : cfg.pathExists key = false) :
    ConfigValue.resolve
        { key := key, default := d, after := Option.none, mandatory := true } cfg
      = .error (.mandatoryMissing key) := by
  simp [ConfigValue.resolve, hd, hex]

theorem falsy_default_witness :
    ConfigValue.resolve
        { key := "a", default := PyVal.int 0, after := Option.none, mandatory := true } cfgX
      = .error (.mandatoryMissing "a") :=
  falsy_default_mandatory_raises cfgX "a" (PyVal.int 0) (by decide) rfl

theorem lookup_assocSet (l : List (String × StoreEntry)) (k : String) (v : StoreEntry) :
    (assocSet l k v).lookup k = some v := by
  induction l with
  | nil => simp [assocSet, List.lookup]
  | cons kv rest ih =>
    by_cases h : kv.1 = k
    · simp [assocSet, h, List.lookup]
    · simp only [assocSet, if_neg h, List.lookup]
      have : (k == kv.1) = false := by
        simp [BEq.beq]
        exact fun hh => h hh.symm
      simp [this, ih]

theorem set_config_spec (st : StoreState) (context : String) (cfg : Config) :
    (ConfigStore.set_config st context cfg).1.context = context ∧
    storeGet (ConfigStore.set_config st context cfg).1 context
      = StoreEntry.built (ConfigStore.set_config st context cfg).2 ∧
    ConfigStore.config (ConfigStore.set_config st context cfg).1
      = .ok (ConfigStore.set_config st context cfg).2 := by
  refine ⟨rfl, ?_, ?_⟩
  · unfold ConfigStore.set_config storeGet
    simp [lookup_assocSet]
  · unfold ConfigStore.config ConfigStore.set_config storeGet
    simp [lookup_assocSet, StoreEntry.asConfig]

/-- C9 (amended): a configure call with a *truthy* source (a `Config`
object, a non-empty document path, or a non-empty mapping) that succeeds
always goes through `_set_config`, which installs the built context under
the requested name and makes that name current — so every subsequent
resolution (`config()`/Deferred Value resolve) reads the configured
context. A falsy source with an already-built context returns the existing
context without switching (see the counterexample). -/
theorem truthy_source_configure_sets_current (loadDoc : String → PyVal)
    (envMerge : PyVal → PyVal) (st : StoreState) (context : String)
    (source : CfgSource) (st' : StoreState) (cfg : Config)
    (hsrc : source.truthy = true)
    (h : ConfigStore.configure_context loadDoc envMerge st context source
      = .ok (st', cfg)) :
    st'.context = context ∧ storeGet st' context = StoreEntry.built cfg ∧
    ConfigStore.config st' = .ok cfg := by
  unfold ConfigStore.configure_context at h
  rw [hsrc] at h
  cases source with
  | noSource => cases hsrc
  | ofConfig c =>
    simp only [Bool.not_true, Bool.and_false] at h
    rw [if_neg (by simp)] at h
    have hpair : ConfigStore.set_config st context c = (st', cfg) := by
      cases h; rfl
    have := set_config_spec st context c
    rw [hpair] at this
    exact this
  | ofStr s =>
    simp only [Bool.not_true, Bool.and_false] at h
    rw [if_neg (by simp)] at h
    have hpair : ConfigStore.set_config st context
        (Config.load loadDoc envMerge (loadInput (CfgSource.ofStr s) (storeGet st context)))
        = (st', cfg) := by
      cases h; rfl
    have := set_config_spec st context
      (Config.load loadDoc envMerge (loadInput (CfgSource.ofStr s) (storeGet st context)))
    rw [hpair] at this
    exact this
  | ofDict d =>
    simp only [Bool.not_true, Bool.and_false] at h
    rw [if_neg (by simp)] at h
    have hpair : ConfigStore.set_config st context
        (Config.load loadDoc envMerge (loadInput (CfgSource.ofDict d) (storeGet st context)))
        = (st', cfg) := by
      cases h; rfl
    have := set_config_spec st context
      (Config.load loadDoc envMerge (loadInput (CfgSource.ofDict d) (storeGet st context)))
    rw [hpair] at this
    exact this

theorem truthy_source_configure_witness :
    storeW2.context = "c2" ∧ storeGet storeW2 "c2" = StoreEntry.built cfgW2 ∧
    ConfigStore.config storeW2 = .ok cfgW2 :=
  truthy_source_configure_sets_current (fun _ => PyVal.none) id storeEmpty "c2"
    (CfgSource.ofConfig cfgW) storeW2 cfgW2 rfl rfl

/-- C9 (counterexample): with contexts `default` (current) and `c` both
built, `configure_context(context="c", source={})` succeeds — the empty
mapping is a falsy source, so the call returns the existing context `c` —
but the current context remains `default`: subsequent resolutions do not
read `c`. -/
theorem configure_with_falsy_source_keeps_current :
    ConfigStore.configure_context (fun _ => PyVal.none) id storeTwo "c"
        (CfgSource.ofDict (PyVal.dict [])) = .ok (storeTwo, cfgC) ∧
    storeTwo.context = "default" ∧ ("default" : String) ≠ "c" :=
  ⟨rfl, rfl, by decide⟩

end AmazonScraper
